import Mathlib

/-!
Shallow embedding of the two quickstart clients of this repository:

* `quickstarts/sqlite_ai/services/ai.py` — class `AIClient`
  (`load_model`, `complete`);
* `quickstarts/sqlite_ai/services/chat.py` — class `ChatService`
  (`chat`, `get_history`, `clear_history`, `get_message_stats`) over the
  `chat_history` table;
* `quickstarts/sqlite_sync/sync.py` — class `SyncClient`
  (`add_todo`, `complete_todo`) over the `todos` table, and the click
  subcommands of both quickstarts.

The sqlite database is modelled as an explicit list of rows carried through
each operation.  The `id INTEGER PRIMARY KEY AUTOINCREMENT` column of
`chat_history` is modelled by a `nextId` counter; `created_at TEXT DEFAULT
CURRENT_TIMESTAMP` is modelled by a `now` field of the database state (the
timestamp sqlite would stamp on a row inserted at this moment).  Calls into
the native extension (`llm_model_load`, `llm_text_generate`) are opaque: the
statements an operation executes are returned as an explicit trace, and the
outcome of a `llm_text_generate` call is a parameter of type `GenResult`
(one row with a value, one row with NULL, no row, or a raised error), exactly
the cases the Python code distinguishes via `fetchone()` and `except`.
-/

/-- One row of the `chat_history` table created by `ChatService.setup_schema`:
columns `id`, `role`, `message`, `model_used` (nullable), `created_at`,
`session_id`. -/
structure ChatRow where
  id : Nat
  role : String
  message : String
  model_used : Option String
  created_at : String
  session_id : String
deriving Repr, DecidableEq

/-- State of the chatbot database: the committed rows of `chat_history` in
insertion order, the next AUTOINCREMENT id, and the current timestamp that
sqlite would store in `created_at` for a row inserted now. -/
structure ChatDB where
  rows : List ChatRow
  nextId : Nat
  now : String
deriving Repr, DecidableEq

/-- Effect of `INSERT INTO chat_history (role, message, model_used, session_id)
VALUES (?, ?, ?, ?)`: the row is appended with the next AUTOINCREMENT id and
`created_at` defaulted to the current timestamp. -/
def ChatDB.insert (db : ChatDB) (role message : String) (model_used : Option String)
    (session_id : String) : ChatDB :=
  { db with
    rows := db.rows ++ [⟨db.nextId, role, message, model_used, db.now, session_id⟩]
    nextId := db.nextId + 1 }

/-- A statement executed against the native sqlite-ai extension. -/
inductive SqlStmt where
  | llm_model_load (path : String)
  | llm_text_generate (prompt : String)
deriving Repr, DecidableEq

/-- Outcome of `self.database_manager.db.execute("SELECT llm_text_generate(?)",
(message,)).fetchone()` in `AIClient.complete`: the call raised, returned no
row, or returned one row whose single column is NULL or a string. -/
inductive GenResult where
  | raises (e : String)
  | noRow
  | row (v : Option String)
deriving Repr, DecidableEq

/-- The mutable state of `AIClient` relevant to the claims: the
`current_model_path` attribute, `None` until a model is loaded. -/
structure AIClient where
  current_model_path : Option String
deriving Repr, DecidableEq

namespace AIClient

/-- `AIClient.load_model` (ai.py).  `fileExists` models `os.path.exists`;
`extRaises` tells whether the `llm_model_load` call would raise.  Returns the
boolean result, the client state afterwards, and the trace of extension
statements executed. -/
def load_model (ai : AIClient) (fileExists : String → Bool) (extRaises : Bool)
    (path : String) : Bool × AIClient × List SqlStmt :=
  if fileExists path then
    if extRaises then
      (false, ai, [SqlStmt.llm_model_load path])
    else
      (true, { ai with current_model_path := some path }, [SqlStmt.llm_model_load path])
  else
    (false, ai, [])

/-- `AIClient.complete` (ai.py).  With no model loaded it returns the sentinel
without touching the extension.  Otherwise `result[0] if result and result[0]
else ...` is Pythonic truthiness: no row, a NULL column and an empty string
all fall back to the fixed apology; a raised error is converted to an error
string.  Returns the response and the trace of extension statements. -/
def complete (ai : AIClient) (gen : GenResult) (message : String) :
    String × List SqlStmt :=
  match ai.current_model_path with
  | none => ("No model loaded. Please load a model first.", [])
  | some _ =>
    match gen with
    | GenResult.raises e =>
        ("Error generating response: " ++ e, [SqlStmt.llm_text_generate message])
    | GenResult.noRow =>
        ("Sorry, I couldn\x27t generate a response.", [SqlStmt.llm_text_generate message])
    | GenResult.row none =>
        ("Sorry, I couldn\x27t generate a response.", [SqlStmt.llm_text_generate message])
    | GenResult.row (some v) =>
        (if v = "" then "Sorry, I couldn\x27t generate a response." else v,
         [SqlStmt.llm_text_generate message])

end AIClient

namespace ChatService

/-- `ChatService.chat` (chat.py).  The response is computed first; then the
user row and the assistant row are inserted and committed, both stamped with
the same `session_id` and with `model_used = self.ai.current_model_path`.
`persistFails` models the `except Exception: pass` branch: if any part of the
storage block raises, nothing is committed and the database is unchanged, but
the response is returned regardless. -/
def chat (ai : AIClient) (db : ChatDB) (gen : GenResult) (persistFails : Bool)
    (session_id message : String) : String × ChatDB :=
  let response := (AIClient.complete ai gen message).1
  if persistFails then
    (response, db)
  else
    let model_used := ai.current_model_path
    let db1 := db.insert "user" message model_used session_id
    let db2 := db1.insert "assistant" response model_used session_id
    (response, db2)

/-- The rows selected by `SELECT role, message, created_at FROM chat_history
WHERE session_id = ? ORDER BY id DESC LIMIT ?` before projection: filter the
session, sort by id descending, truncate to the limit. -/
def historyRows (db : ChatDB) (session_id : String) (limit : Nat) : List ChatRow :=
  ((db.rows.filter (fun r => r.session_id == session_id)).mergeSort
      (fun a b => decide (b.id ≤ a.id))).take limit

/-- `ChatService.get_history` (chat.py): the selected rows projected to the
`(role, message, created_at)` columns of the query. -/
def get_history (db : ChatDB) (session_id : String) (limit : Nat) :
    List (String × String × String) :=
  (historyRows db session_id limit).map (fun r => (r.role, r.message, r.created_at))

/-- `ChatService.clear_history` (chat.py): `DELETE FROM chat_history WHERE
session_id = ?`, returning `cursor.rowcount`, the number of deleted rows. -/
def clear_history (db : ChatDB) (session_id : String) : Nat × ChatDB :=
  (db.rows.countP (fun r => r.session_id == session_id),
   { db with rows := db.rows.filter (fun r => !(r.session_id == session_id)) })

/-- `ChatService.get_message_stats` (chat.py): the two COUNT queries, total
rows of the session and rows of the session whose role is `user`. -/
def get_message_stats (db : ChatDB) (session_id : String) : Nat × Nat :=
  (db.rows.countP (fun r => r.session_id == session_id),
   db.rows.countP (fun r => r.session_id == session_id && r.role == "user"))

end ChatService

/-- One row of the `todos` table of the sync quickstart (sync.py): columns
`id` (TEXT PRIMARY KEY), `title`, `completed`, `created_at`, `device`. -/
structure Todo where
  id : String
  title : String
  completed : Bool
  created_at : String
  device : String
deriving Repr, DecidableEq

/-- State of the sync quickstart database: the committed rows of `todos`. -/
structure SyncDB where
  todos : List Todo
deriving Repr, DecidableEq

namespace SyncClient

/-- `SyncClient.add_todo` (sync.py): `INSERT INTO todos (id, title, device)
VALUES (?, ?, ?)` followed by commit; `completed` defaults to 0 and
`created_at` to the current timestamp (`now`).  `todo_id` is the value of
`self._get_uuid()` and `device` the value of `self.client_id`.  Returns the
new state and the returned id. -/
def add_todo (db : SyncDB) (todo_id title device now : String) : SyncDB × String :=
  ({ todos := db.todos ++ [⟨todo_id, title, false, now, device⟩] }, todo_id)

/-- `SyncClient.complete_todo` (sync.py): `UPDATE todos SET completed = 1
WHERE id = ?`; if `cursor.rowcount > 0` the change is committed and success is
echoed, otherwise `Todo not found` is echoed.  Returns the new state and the
echoed message. -/
def complete_todo (db : SyncDB) (todo_id : String) : SyncDB × String :=
  let updated := db.todos.map
    (fun t => if t.id == todo_id then { t with completed := true } else t)
  let rowcount := db.todos.countP (fun t => t.id == todo_id)
  if rowcount > 0 then
    ({ todos := updated }, "✅ Todo completed!")
  else
    ({ todos := updated }, "❌ Todo not found")

end SyncClient

/-- Observable outcome of one click subcommand invocation run as a process:
whether an error was printed (the `Please start the ... first` guard message,
or an uncaught-exception traceback), whether the client operation actually
ran, and the process exit code.  A click command callback that returns
normally makes the standalone runner exit with code 0; an exception the
callback does not catch escapes the runner as a traceback and exit code 1.
The guards below return normally; four AI-quickstart callbacks raise: cli.py
calls `client.chat`, `client.show_history`, `client.clear_history` and
`client.show_status`, none of which the `AIClient` class of services/ai.py
defines (it has only `load_model` and `complete`; the methods named `chat` and
`clear_history` live on `ChatService`, which cli.py never constructs), so the
attribute lookup raises AttributeError before any operation runs. -/
structure CliOutcome where
  errorPrinted : Bool
  performed : Bool
  exitCode : Nat
deriving Repr, DecidableEq

namespace AiCli

/-- Subcommand `chat` (cli.py): guard on the global `client`, then
`client.chat(message)` — an attribute `AIClient` lacks, so with a started
client the callback raises AttributeError and the process exits 1. -/
def chat (client : Option AIClient) (message : String) : CliOutcome :=
  match client, message with
  | none, _ => { errorPrinted := true, performed := false, exitCode := 0 }
  | some _, _ => { errorPrinted := true, performed := false, exitCode := 1 }

/-- Subcommand `history` (cli.py): `client.show_history()` — an attribute
`AIClient` lacks, so with a started client it raises and exits 1. -/
def history (client : Option AIClient) : CliOutcome :=
  match client with
  | none => { errorPrinted := true, performed := false, exitCode := 0 }
  | some _ => { errorPrinted := true, performed := false, exitCode := 1 }

/-- Subcommand `clear` (cli.py): `client.clear_history()` — an attribute
`AIClient` lacks, so with a started client it raises and exits 1. -/
def clear (client : Option AIClient) : CliOutcome :=
  match client with
  | none => { errorPrinted := true, performed := false, exitCode := 0 }
  | some _ => { errorPrinted := true, performed := false, exitCode := 1 }

/-- Subcommand `load` (cli.py): `client.load_model(model_path)`, a method
`AIClient` does define and which never raises, so the callback returns
normally and the process exits 0. -/
def load (client : Option AIClient) (model_path : String) : CliOutcome :=
  match client, model_path with
  | none, _ => { errorPrinted := true, performed := false, exitCode := 0 }
  | some _, _ => { errorPrinted := false, performed := true, exitCode := 0 }

/-- Subcommand `status` (cli.py): `client.show_status()` — an attribute
`AIClient` lacks, so with a started client it raises and exits 1. -/
def status (client : Option AIClient) : CliOutcome :=
  match client with
  | none => { errorPrinted := true, performed := false, exitCode := 0 }
  | some _ => { errorPrinted := true, performed := false, exitCode := 1 }

end AiCli

namespace SyncCli

/-- Subcommand `add` (sync.py). -/
def add (client : Option SyncDB) (title : String) : CliOutcome :=
  match client, title with
  | none, _ => { errorPrinted := true, performed := false, exitCode := 0 }
  | some _, _ => { errorPrinted := false, performed := true, exitCode := 0 }

/-- Subcommand `list` (sync.py). -/
def list (client : Option SyncDB) : CliOutcome :=
  match client with
  | none => { errorPrinted := true, performed := false, exitCode := 0 }
  | some _ => { errorPrinted := false, performed := true, exitCode := 0 }

/-- Subcommand `complete` (sync.py). -/
def complete (client : Option SyncDB) (todo_id : String) : CliOutcome :=
  match client, todo_id with
  | none, _ => { errorPrinted := true, performed := false, exitCode := 0 }
  | some _, _ => { errorPrinted := false, performed := true, exitCode := 0 }

/-- Subcommand `sync` (sync.py). -/
def sync (client : Option SyncDB) : CliOutcome :=
  match client with
  | none => { errorPrinted := true, performed := false, exitCode := 0 }
  | some _ => { errorPrinted := false, performed := true, exitCode := 0 }

/-- Subcommand `status` (sync.py). -/
def status (client : Option SyncDB) : CliOutcome :=
  match client with
  | none => { errorPrinted := true, performed := false, exitCode := 0 }
  | some _ => { errorPrinted := false, performed := true, exitCode := 0 }

/-- Subcommand `cloud` (sync.py). -/
def cloud (client : Option SyncDB) (connection_string api_key : String) : CliOutcome :=
  match client, connection_string, api_key with
  | none, _, _ => { errorPrinted := true, performed := false, exitCode := 0 }
  | some _, _, _ => { errorPrinted := false, performed := true, exitCode := 0 }

end SyncCli

/-- The subcommands of the AI quickstart CLI (cli.py). -/
inductive AiCmd where
  | chat (message : String)
  | history
  | clear
  | load (model_path : String)
  | status
deriving Repr, DecidableEq

/-- The subcommands of the sync quickstart CLI (sync.py). -/
inductive SyncCmd where
  | add (title : String)
  | list
  | complete (todo_id : String)
  | sync
  | status
  | cloud (connection_string api_key : String)
deriving Repr, DecidableEq

/-- Dispatch of one AI quickstart subcommand to its click handler. -/
def runAiCmd (client : Option AIClient) : AiCmd → CliOutcome
  | AiCmd.chat m => AiCli.chat client m
  | AiCmd.history => AiCli.history client
  | AiCmd.clear => AiCli.clear client
  | AiCmd.load p => AiCli.load client p
  | AiCmd.status => AiCli.status client

/-- Dispatch of one sync quickstart subcommand to its click handler. -/
def runSyncCmd (client : Option SyncDB) : SyncCmd → CliOutcome
  | SyncCmd.add t => SyncCli.add client t
  | SyncCmd.list => SyncCli.list client
  | SyncCmd.complete i => SyncCli.complete client i
  | SyncCmd.sync => SyncCli.sync client
  | SyncCmd.status => SyncCli.status client
  | SyncCmd.cloud u k => SyncCli.cloud client u k

/-- The error string built from a raised extension error is never the empty
string: its fixed prefix already has length 27. -/
theorem error_prefix_ne_empty (e : String) :
    "Error generating response: " ++ e ≠ "" := by
  intro he
  have hl := congrArg String.length he
  rw [String.length_append] at hl
  have h27 : ("Error generating response: ").length = 27 := by decide
  have h0 : ("" : String).length = 0 := rfl
  rw [h27, h0] at hl
  omega

/-- C3: for every input message, if no model is loaded (current_model_path is
unset) then `AIClient.complete` returns the fixed sentinel string and executes
no extension statement at all. -/
theorem complete_no_model (ai : AIClient) (gen : GenResult) (message : String)
    (h : ai.current_model_path = none) :
    AIClient.complete ai gen message =
      ("No model loaded. Please load a model first.", []) := by
  unfold AIClient.complete
  rw [h]

/-- Witness for C3 at a freshly constructed client and a concrete message. -/
theorem complete_no_model_witness :
    (AIClient.mk none).current_model_path = none ∧
    AIClient.complete (AIClient.mk none) GenResult.noRow "hello" =
      ("No model loaded. Please load a model first.", []) :=
  ⟨rfl, complete_no_model (AIClient.mk none) GenResult.noRow "hello" rfl⟩

/-- C4: for every path the filesystem lacks, `AIClient.load_model` returns
false, executes no extension statement, and leaves the client state (hence
current_model_path) unchanged, whatever the extension would have done. -/
theorem load_model_nonexistent (ai : AIClient) (fileExists : String → Bool)
    (extRaises : Bool) (path : String) (h : fileExists path = false) :
    AIClient.load_model ai fileExists extRaises path = (false, ai, []) := by
  simp [AIClient.load_model, h]

/-- Witness for C4 on an empty filesystem and a fresh client. -/
theorem load_model_nonexistent_witness :
    (fun (_ : String) => false) "./models/llama.gguf" = false ∧
    AIClient.load_model (AIClient.mk none) (fun _ => false) false
        "./models/llama.gguf" =
      (false, AIClient.mk none, []) :=
  ⟨rfl, load_model_nonexistent (AIClient.mk none) (fun _ => false) false
    "./models/llama.gguf" rfl⟩

/-- C10: for every input message, with a model loaded `AIClient.complete`
returns a non-empty string; no row, a NULL value and an empty value yield the
fixed fallback, a raised error yields the prefixed error string, and a
non-empty generated value is returned as is. -/
theorem complete_model_loaded_nonempty (ai : AIClient) (p : String)
    (hp : ai.current_model_path = some p) (gen : GenResult) (message : String) :
    (AIClient.complete ai gen message).1 ≠ "" ∧
    (∀ e, gen = GenResult.raises e →
      (AIClient.complete ai gen message).1 = "Error generating response: " ++ e) ∧
    ((gen = GenResult.noRow ∨ gen = GenResult.row none ∨
        gen = GenResult.row (some "")) →
      (AIClient.complete ai gen message).1 =
        "Sorry, I couldn\x27t generate a response.") ∧
    (∀ v, gen = GenResult.row (some v) → v ≠ "" →
      (AIClient.complete ai gen message).1 = v) := by
  rcases gen with e | _ | v
  · have hc : (AIClient.complete ai (GenResult.raises e) message).1 =
        "Error generating response: " ++ e := by
      simp [AIClient.complete, hp]
    refine ⟨?_, ?_, ?_, ?_⟩
    · rw [hc]
      exact error_prefix_ne_empty e
    · intro e2 he2
      cases he2
      exact hc
    · intro hor
      rcases hor with h | h | h <;> cases h
    · intro v hv
      cases hv
  · have hc : (AIClient.complete ai GenResult.noRow message).1 =
        "Sorry, I couldn\x27t generate a response." := by
      simp [AIClient.complete, hp]
    refine ⟨?_, ?_, ?_, ?_⟩
    · rw [hc]
      decide
    · intro e2 he2
      cases he2
    · intro _
      exact hc
    · intro v hv
      cases hv
  · rcases v with _ | v
    · have hc : (AIClient.complete ai (GenResult.row none) message).1 =
          "Sorry, I couldn\x27t generate a response." := by
        simp [AIClient.complete, hp]
      refine ⟨?_, ?_, ?_, ?_⟩
      · rw [hc]
        decide
      · intro e2 he2
        cases he2
      · intro _
        exact hc
      · intro v hv
        cases hv
    · have hc : (AIClient.complete ai (GenResult.row (some v)) message).1 =
          if v = "" then "Sorry, I couldn\x27t generate a response." else v := by
        simp [AIClient.complete, hp]
      refine ⟨?_, ?_, ?_, ?_⟩
      · rw [hc]
        by_cases hv : v = ""
        · rw [if_pos hv]
          decide
        · rw [if_neg hv]
          exact hv
      · intro e2 he2
        cases he2
      · intro hor
        rcases hor with h | h | h
        · cases h
        · cases h
        · injection h with h2
          injection h2 with h3
          rw [hc, if_pos h3]
      · intro w hw hne
        cases hw
        rw [hc, if_neg hne]

/-- Witness for C10 at a loaded client and each of two concrete outcomes. -/
theorem complete_model_loaded_nonempty_witness :
    (AIClient.mk (some "./m.gguf")).current_model_path = some "./m.gguf" ∧
    (AIClient.complete (AIClient.mk (some "./m.gguf")) (GenResult.raises "boom")
        "hi").1 = "Error generating response: " ++ "boom" ∧
    (AIClient.complete (AIClient.mk (some "./m.gguf")) (GenResult.raises "boom")
        "hi").1 ≠ "" :=
  ⟨rfl,
   (complete_model_loaded_nonempty (AIClient.mk (some "./m.gguf")) "./m.gguf"
      rfl (GenResult.raises "boom") "hi").2.1 "boom" rfl,
   (complete_model_loaded_nonempty (AIClient.mk (some "./m.gguf")) "./m.gguf"
      rfl (GenResult.raises "boom") "hi").1⟩

/-- C1: a chat turn whose history insert succeeds appends exactly two rows to
`chat_history`, first the user row carrying the input message, then the
assistant row carrying the returned response, with identical session ids and
with `model_used` equal to the current model path of the AI client. -/
theorem chat_inserts_two_rows (ai : AIClient) (db : ChatDB) (gen : GenResult)
    (session_id message : String) :
    (ChatService.chat ai db gen false session_id message).2.rows =
      db.rows ++
        [{ id := db.nextId, role := "user", message := message,
           model_used := ai.current_model_path, created_at := db.now,
           session_id := session_id },
         { id := db.nextId + 1, role := "assistant",
           message := (ChatService.chat ai db gen false session_id message).1,
           model_used := ai.current_model_path, created_at := db.now,
           session_id := session_id }] := by
  simp [ChatService.chat, ChatDB.insert]

/-- C7: when the storage block raises, `ChatService.chat` still returns
exactly the response produced by `AIClient.complete`, the same value a
successful persist returns, and leaves the database untouched. -/
theorem chat_persist_failure_keeps_response (ai : AIClient) (db : ChatDB)
    (gen : GenResult) (session_id message : String) :
    (ChatService.chat ai db gen true session_id message).1 =
      (AIClient.complete ai gen message).1 ∧
    (ChatService.chat ai db gen true session_id message).1 =
      (ChatService.chat ai db gen false session_id message).1 ∧
    (ChatService.chat ai db gen true session_id message).2 = db :=
  ⟨rfl, rfl, rfl⟩

/-- C8 counterexample: with the client never started, both quickstart CLIs
print the guard error but the process still exits with code 0, not with a
non-zero code as claimed. -/
theorem cli_never_started_exit_zero :
    (runAiCmd none (AiCmd.chat "hello")).errorPrinted = true ∧
    (runAiCmd none (AiCmd.chat "hello")).exitCode = 0 ∧
    (runSyncCmd none (SyncCmd.add "Learn X")).errorPrinted = true ∧
    (runSyncCmd none (SyncCmd.add "Learn X")).exitCode = 0 := by
  refine ⟨rfl, rfl, rfl, rfl⟩

/-- C8 amended: for every subcommand of either quickstart CLI, invoking it
when the client was never started prints an error and performs no client
operation, but the process exits with code 0, not a non-zero code.  With the
client started, every sync-quickstart subcommand and the AI quickstart load
subcommand perform the operation and exit 0; the AI quickstart chat, history,
clear and status subcommands never reach their operation — cli.py invokes
methods `AIClient` does not define, so they raise AttributeError, print a
traceback and exit 1. -/
theorem cli_guard_behavior (aiClient : AIClient) (syncDb : SyncDB)
    (acmd : AiCmd) (scmd : SyncCmd) (message model_path : String) :
    (runAiCmd none acmd).errorPrinted = true ∧
    (runAiCmd none acmd).performed = false ∧
    (runAiCmd none acmd).exitCode = 0 ∧
    (runSyncCmd none scmd).errorPrinted = true ∧
    (runSyncCmd none scmd).performed = false ∧
    (runSyncCmd none scmd).exitCode = 0 ∧
    (runSyncCmd (some syncDb) scmd).performed = true ∧
    (runSyncCmd (some syncDb) scmd).exitCode = 0 ∧
    (runAiCmd (some aiClient) (AiCmd.load model_path)).performed = true ∧
    (runAiCmd (some aiClient) (AiCmd.load model_path)).exitCode = 0 ∧
    (runAiCmd (some aiClient) (AiCmd.chat message)).performed = false ∧
    (runAiCmd (some aiClient) (AiCmd.chat message)).errorPrinted = true ∧
    (runAiCmd (some aiClient) (AiCmd.chat message)).exitCode = 1 ∧
    (runAiCmd (some aiClient) AiCmd.history).exitCode = 1 ∧
    (runAiCmd (some aiClient) AiCmd.clear).exitCode = 1 ∧
    (runAiCmd (some aiClient) AiCmd.status).exitCode = 1 := by
  cases acmd <;> cases scmd <;>
    exact ⟨rfl, rfl, rfl, rfl, rfl, rfl, rfl, rfl, rfl, rfl, rfl, rfl, rfl,
      rfl, rfl, rfl⟩

/-- C2: `get_history` returns at most `limit` messages, every selected row
belongs to the requested session and to the stored table, the selected rows
are ordered by descending row id (newest first), and the result is exactly
their projection to the selected columns. -/
theorem get_history_spec (db : ChatDB) (session_id : String) (limit : Nat) :
    (ChatService.get_history db session_id limit).length ≤ limit ∧
    (∀ r ∈ ChatService.historyRows db session_id limit,
        r.session_id = session_id ∧ r ∈ db.rows) ∧
    (ChatService.historyRows db session_id limit).Pairwise
      (fun a b => b.id ≤ a.id) ∧
    ChatService.get_history db session_id limit =
      (ChatService.historyRows db session_id limit).map
        (fun r => (r.role, r.message, r.created_at)) := by
  refine ⟨?_, ?_, ?_, rfl⟩
  · rw [ChatService.get_history, List.length_map, ChatService.historyRows,
      List.length_take]
    exact min_le_left _ _
  · intro r hr
    have h1 : r ∈ (db.rows.filter
        (fun r => r.session_id == session_id)).mergeSort
        (fun a b => decide (b.id ≤ a.id)) := List.mem_of_mem_take hr
    have h2 : r ∈ db.rows.filter (fun r => r.session_id == session_id) :=
      (List.mergeSort_perm _ _).subset h1
    rw [List.mem_filter] at h2
    exact ⟨by simpa using h2.2, h2.1⟩
  · have htrans : ∀ a b c : ChatRow, decide (b.id ≤ a.id) = true →
        decide (c.id ≤ b.id) = true → decide (c.id ≤ a.id) = true := by
      intro a b c hab hbc
      simp only [decide_eq_true_eq] at *
      omega
    have htotal : ∀ a b : ChatRow,
        (decide (b.id ≤ a.id) || decide (a.id ≤ b.id)) = true := by
      intro a b
      simp only [Bool.or_eq_true, decide_eq_true_eq]
      omega
    have hs := @List.sorted_mergeSort ChatRow
      (fun a b => decide (b.id ≤ a.id)) htrans htotal
      (db.rows.filter (fun r => r.session_id == session_id))
    have hs2 : ((db.rows.filter
        (fun r => r.session_id == session_id)).mergeSort
        (fun a b => decide (b.id ≤ a.id))).Pairwise
        (fun a b : ChatRow => b.id ≤ a.id) :=
      hs.imp (fun hab => of_decide_eq_true hab)
    exact List.Pairwise.sublist (List.take_sublist _ _) hs2

/-- C5: clearing session s1 returns exactly the number of rows stored under
s1, preserves every row of any other session s2 verbatim, removes every s1
row, keeps every non-s1 row, and leaves the id counter alone. -/
theorem clear_history_session_isolation (db : ChatDB) (s1 s2 : String)
    (h : s1 ≠ s2) :
    (ChatService.clear_history db s1).1 =
      (db.rows.filter (fun r => r.session_id == s1)).length ∧
    (ChatService.clear_history db s1).2.rows.filter
        (fun r => r.session_id == s2) =
      db.rows.filter (fun r => r.session_id == s2) ∧
    (∀ r ∈ (ChatService.clear_history db s1).2.rows, r.session_id ≠ s1) ∧
    (∀ r ∈ db.rows, r.session_id ≠ s1 →
      r ∈ (ChatService.clear_history db s1).2.rows) ∧
    (ChatService.clear_history db s1).2.nextId = db.nextId := by
  refine ⟨List.countP_eq_length_filter _ _, ?_, ?_, ?_, rfl⟩
  · show (db.rows.filter (fun r => !(r.session_id == s1))).filter
        (fun r => r.session_id == s2) =
      db.rows.filter (fun r => r.session_id == s2)
    rw [List.filter_filter]
    apply List.filter_congr
    intro r _
    by_cases hb : r.session_id = s2
    · have h21 : r.session_id ≠ s1 := by
        rw [hb]
        exact Ne.symm h
      simp [hb, h21, Ne.symm h]
    · simp [hb]
  · intro r hr
    have := (List.mem_filter.mp hr).2
    simpa using this
  · intro r hr hne
    exact List.mem_filter.mpr ⟨hr, by simpa using hne⟩

/-- A small two-session `chat_history` instance used by the C5 witness. -/
def witnessChatDB : ChatDB :=
  { rows :=
      [{ id := 1, role := "user", message := "hi", model_used := none,
         created_at := "t1", session_id := "alice" },
       { id := 2, role := "assistant", message := "yo", model_used := none,
         created_at := "t2", session_id := "bob" }]
    nextId := 3
    now := "t3" }

/-- Witness for C5 on the concrete two-session database. -/
theorem clear_history_session_isolation_witness :
    (("alice" : String) ≠ "bob") ∧
    ((ChatService.clear_history witnessChatDB "alice").1 =
        (witnessChatDB.rows.filter (fun r => r.session_id == "alice")).length ∧
      (ChatService.clear_history witnessChatDB "alice").2.rows.filter
          (fun r => r.session_id == "bob") =
        witnessChatDB.rows.filter (fun r => r.session_id == "bob") ∧
      (∀ r ∈ (ChatService.clear_history witnessChatDB "alice").2.rows,
        r.session_id ≠ "alice") ∧
      (∀ r ∈ witnessChatDB.rows, r.session_id ≠ "alice" →
        r ∈ (ChatService.clear_history witnessChatDB "alice").2.rows) ∧
      (ChatService.clear_history witnessChatDB "alice").2.nextId =
        witnessChatDB.nextId) :=
  ⟨by decide,
   clear_history_session_isolation witnessChatDB "alice" "bob" (by decide)⟩

/-- C6: the statistics of a session are the number of its rows and the number
of its rows whose role is `user`; the latter never exceeds the former. -/
theorem get_message_stats_spec (db : ChatDB) (session_id : String) :
    (ChatService.get_message_stats db session_id).1 =
      (db.rows.filter (fun r => r.session_id == session_id)).length ∧
    (ChatService.get_message_stats db session_id).2 =
      ((db.rows.filter (fun r => r.session_id == session_id)).filter
        (fun r => r.role == "user")).length ∧
    (ChatService.get_message_stats db session_id).2 ≤
      (ChatService.get_message_stats db session_id).1 := by
  have h2 : (ChatService.get_message_stats db session_id).2 =
      ((db.rows.filter (fun r => r.session_id == session_id)).filter
        (fun r => r.role == "user")).length := by
    show db.rows.countP
        (fun r => r.session_id == session_id && r.role == "user") =
      ((db.rows.filter (fun r => r.session_id == session_id)).filter
        (fun r => r.role == "user")).length
    rw [List.filter_filter, List.countP_eq_length_filter]
    apply congrArg List.length
    apply List.filter_congr
    intro r _
    exact Bool.and_comm _ _
  refine ⟨List.countP_eq_length_filter _ _, h2, ?_⟩
  rw [h2]
  show _ ≤ db.rows.countP (fun r => r.session_id == session_id)
  rw [List.countP_eq_length_filter]
  exact List.length_filter_le _ _

/-- C9: `complete_todo` only flips the completed flag of the rows whose id
matches, preserves every other row verbatim and every matched row in all
other fields, changes nothing and reports `Todo not found` when no id
matches, and never removes a row; `add_todo` only appends. -/
theorem complete_todo_frame (db : SyncDB) (tid : String) :
    (SyncClient.complete_todo db tid).1.todos =
      db.todos.map
        (fun t => if t.id = tid then { t with completed := true } else t) ∧
    (∀ t ∈ db.todos, t.id ≠ tid →
      t ∈ (SyncClient.complete_todo db tid).1.todos) ∧
    (∀ t ∈ (SyncClient.complete_todo db tid).1.todos, ∃ s ∈ db.todos,
      t.id = s.id ∧ t.title = s.title ∧ t.created_at = s.created_at ∧
        t.device = s.device) ∧
    ((∀ t ∈ db.todos, t.id ≠ tid) →
      (SyncClient.complete_todo db tid).1 = db ∧
      (SyncClient.complete_todo db tid).2 = "❌ Todo not found") ∧
    (SyncClient.complete_todo db tid).1.todos.length = db.todos.length ∧
    (∀ todo_id title device now : String,
      (SyncClient.add_todo db todo_id title device now).1.todos.length =
        db.todos.length + 1 ∧
      ∀ t ∈ db.todos,
        t ∈ (SyncClient.add_todo db todo_id title device now).1.todos) := by
  have hfst : (SyncClient.complete_todo db tid).1 =
      SyncDB.mk (db.todos.map
        (fun t => if t.id == tid then { t with completed := true } else t)) := by
    unfold SyncClient.complete_todo
    by_cases hc : db.todos.countP (fun t => t.id == tid) > 0 <;> simp [hc]
  have hupd : (SyncClient.complete_todo db tid).1.todos =
      db.todos.map
        (fun t => if t.id == tid then { t with completed := true } else t) := by
    rw [hfst]
  have hmap : (SyncClient.complete_todo db tid).1.todos =
      db.todos.map
        (fun t => if t.id = tid then { t with completed := true } else t) := by
    rw [hupd]
    apply List.map_congr_left
    intro t _
    by_cases ht : t.id = tid <;> simp [ht]
  refine ⟨hmap, ?_, ?_, ?_, ?_, ?_⟩
  · intro t ht hne
    rw [hmap]
    exact List.mem_map.mpr ⟨t, ht, by simp [hne]⟩
  · intro t ht
    rw [hmap] at ht
    rcases List.mem_map.mp ht with ⟨s, hs, rfl⟩
    refine ⟨s, hs, ?_⟩
    by_cases h1 : s.id = tid <;> simp [h1]
  · intro hall
    have hcongr : ∀ t ∈ db.todos,
        (if t.id == tid then { t with completed := true } else t) = t := by
      intro t ht
      simp [hall t ht]
    have hid : db.todos.map
        (fun t => if t.id == tid then { t with completed := true } else t) =
        db.todos := by
      rw [List.map_congr_left hcongr]
      simp
    have hcnt : db.todos.countP (fun t => t.id == tid) = 0 := by
      rw [List.countP_eq_zero]
      intro t ht
      simp [hall t ht]
    constructor
    · rw [hfst, hid]
    · show (SyncClient.complete_todo db tid).2 = _
      unfold SyncClient.complete_todo
      simp [hcnt]
  · rw [hmap]
    exact List.length_map _ _
  · intro todo_id title device now
    constructor
    · show (db.todos ++ [_]).length = db.todos.length + 1
      rw [List.length_append]
      rfl
    · intro t ht
      show t ∈ db.todos ++ [_]
      exact List.mem_append.mpr (Or.inl ht)

/-- A one-row `todos` instance used by the C9 witness. -/
def witnessSyncDB : SyncDB :=
  { todos :=
      [{ id := "aaa", title := "Learn X", completed := false,
         created_at := "t1", device := "device-a" }] }

/-- Witness for C9: completing an id that no row carries leaves the concrete
table unchanged and reports not found, and the stored row survives. -/
theorem complete_todo_frame_witness :
    ((SyncClient.complete_todo witnessSyncDB "zzz").1 = witnessSyncDB ∧
     (SyncClient.complete_todo witnessSyncDB "zzz").2 = "❌ Todo not found") ∧
    ({ id := "aaa", title := "Learn X", completed := false, created_at := "t1",
       device := "device-a" } : Todo) ∈
      (SyncClient.complete_todo witnessSyncDB "zzz").1.todos :=
  ⟨(complete_todo_frame witnessSyncDB "zzz").2.2.2.1 (by decide),
   (complete_todo_frame witnessSyncDB "zzz").2.1
     { id := "aaa", title := "Learn X", completed := false, created_at := "t1",
       device := "device-a" } (by decide) (by decide)⟩
